import Mathlib

/-!
Verification development for `gass` (`src/gass/webscraper.py`), a scraper that
downloads the GPRO "race analysis" page and extracts a typed record from it.

The Python source is shallowly embedded:
* HTML documents are modelled by the access results the code actually uses
  (CSS-selected texts, label-indexed tables with rows of cells);
* Python exceptions become an explicit `PyErr` error type threaded through
  `Except`;
* the three regular expressions of the source are embedded as token lists
  interpreted by a deterministic leftmost greedy matcher (for these patterns
  each starred character class is followed by a character outside the class,
  so greedy matching without backtracking coincides with Python `re.search`);
* `requests.Session.get` becomes an oracle `String → Doc` from URL to served
  document, and each operation additionally returns the list of URLs it
  requested;
* the mutable `saved_data` dict becomes an explicit association list with
  Python-dict insert-or-overwrite semantics.

Dynamically-typed dataclass fields that the source populates with *strings*
despite an `int` annotation (the weather forecast fields) are modelled with a
`PyVal` sum so that the runtime value is recorded faithfully.
-/

set_option maxRecDepth 4000

deriving instance DecidableEq for Except

/-! ## Python string/number primitives -/

/-- The characters Python's no-argument `str.strip()` removes. -/
def pyWhitespace : List Char := [' ', '\t', '\n', '\r', '\x0b', '\x0c']

/-- Python `str.strip(chars)`: drop characters in `chars` from both ends. -/
def pyStrip (chars : List Char) (s : String) : String :=
  String.mk (((s.data.dropWhile (fun c => chars.contains c)).reverse.dropWhile
    (fun c => chars.contains c)).reverse)

/-- Python `str.strip()` (whitespace). -/
def pyStripWS (s : String) : String := pyStrip pyWhitespace s

/-- Errors of the embedded program, mirroring the Python exception classes the
source can raise: `ValueError` (with its message), the scraper's own
`NotRacedError` (with its message), `AttributeError` (attribute access on
`None`, e.g. a failed `select_one`/`find`/`re.search`), `TypeError`,
`KeyError` (missing `attrs` key) and `IndexError` (list `pop`/index on a
too-short list). -/
inductive PyErr where
  | valueError (msg : String)
  | notRacedError (msg : String)
  | attributeError
  | typeError
  | keyError
  | indexError
deriving DecidableEq, Repr

/-- The message of Python `int()` on unparseable input (constant here; the
source never inspects it). -/
def intErrMsg : String := "invalid literal for int() with base 10"

/-- The character list `int()` examines after stripping surrounding
whitespace, split into a leading-minus flag and the remaining characters
(an explicit `+` is consumed without setting the flag). -/
def intSignSplit (s : String) : Bool × List Char :=
  match ((s.data.dropWhile (fun c => pyWhitespace.contains c)).reverse.dropWhile
    (fun c => pyWhitespace.contains c)).reverse with
  | '-' :: r => (true, r)
  | '+' :: r => (false, r)
  | t => (false, t)

/-- The value of a digit list read in base 10. -/
def digitsVal (l : List Char) : Nat :=
  l.foldl (fun a c => a * 10 + (c.toNat - 48)) 0

/-- Python `int(s)`: strip whitespace, optional sign, decimal digits;
anything else raises `ValueError`. -/
def pyInt (s : String) : Except PyErr Int :=
  if (intSignSplit s).2.isEmpty || !((intSignSplit s).2.all Char.isDigit) then
    Except.error (PyErr.valueError intErrMsg)
  else
    Except.ok (if (intSignSplit s).1 then -(digitsVal (intSignSplit s).2 : Int)
      else (digitsVal (intSignSplit s).2 : Int))

/-- The decimal digit character for `n % 10`. -/
def digitChar : Nat → Char
  | 0 => '0' | 1 => '1' | 2 => '2' | 3 => '3' | 4 => '4'
  | 5 => '5' | 6 => '6' | 7 => '7' | 8 => '8' | _ => '9'

/-- Accumulator loop of decimal rendering of a natural number.  The first
argument is recursion fuel; `n` itself always dominates the digit count of
`n`, so `natStr` below passes `n`. -/
def natStrGo : Nat → Nat → List Char → List Char
  | 0, _, acc => acc
  | fuel + 1, n, acc =>
      if n = 0 then acc else natStrGo fuel (n / 10) (digitChar (n % 10) :: acc)

/-- Decimal rendering of a natural number, as Python `str` produces it. -/
def natStr (n : Nat) : String :=
  if n = 0 then "0" else String.mk (natStrGo n n [])

/-- Python `str(i)` for an `int`. -/
def intStr (i : Int) : String :=
  if i < 0 then "-" ++ natStr i.natAbs else natStr i.toNat

/-- Python `f"{x}"` where `x : Option Int` models an `int`-or-`None`
argument: `None` is interpolated literally as the text `None`. -/
def pyStrOptInt : Option Int → String
  | none => "None"
  | some i => intStr i

/-! ## Embedded regular expressions

The source uses four patterns, all built from literal characters, `\s*`,
capturing `(\d*)`, optional single characters and one `(\w* - \d*)` group.
They are embedded as token lists with a deterministic greedy matcher. -/

/-- One token of an embedded regular expression. -/
inductive RTok where
  /-- a literal character -/
  | lit (c : Char)
  /-- `\s*` -/
  | wsStar
  /-- a capturing `(\d*)` -/
  | capDigits
  /-- an optional literal character, `c?` -/
  | optLit (c : Char)
  /-- the capturing `(\w* - \d*)` group of the identity pattern -/
  | capWordDashDigits
deriving DecidableEq, Repr

/-- `\s` of Python `re`, on the (ASCII) inputs this program meets. -/
def isReSpace (c : Char) : Bool := pyWhitespace.contains c

/-- `\w` of Python `re`, on the (ASCII) inputs this program meets. -/
def isReWord (c : Char) : Bool := c.isAlphanum || c = '_'

/-- Greedy matcher: match the token list against a prefix of the character
list, returning the captured groups in order.  For the patterns of this
development every starred class is followed by a character outside the class,
so the greedy result coincides with Python's backtracking result. -/
def matchToks : List RTok → List Char → Option (List String)
  | [], _ => some []
  | RTok.lit c :: ts, x :: xs => if x = c then matchToks ts xs else none
  | RTok.lit _ :: _, [] => none
  | RTok.wsStar :: ts, xs => matchToks ts (xs.dropWhile isReSpace)
  | RTok.capDigits :: ts, xs =>
      (matchToks ts (xs.dropWhile Char.isDigit)).map
        (fun gs => String.mk (xs.takeWhile Char.isDigit) :: gs)
  | RTok.optLit c :: ts, x :: xs =>
      if x = c then matchToks ts xs else matchToks ts (x :: xs)
  | RTok.optLit _ :: ts, [] => matchToks ts []
  | RTok.capWordDashDigits :: ts, xs =>
      match xs.dropWhile isReWord with
      | ' ' :: '-' :: ' ' :: rest =>
          (matchToks ts (rest.dropWhile Char.isDigit)).map
            (fun gs =>
              (String.mk (xs.takeWhile isReWord) ++ " - " ++
                String.mk (rest.takeWhile Char.isDigit)) :: gs)
      | _ => none

/-- `re.search`: try the pattern at each start position, leftmost first;
`none` models a `None` match object. -/
def reSearch (p : List RTok) : List Char → Option (List String)
  | [] => matchToks p []
  | x :: xs =>
      match matchToks p (x :: xs) with
      | some gs => some gs
      | none => reSearch p xs

/-- Literal-character tokens for a string. -/
def lits (s : String) : List RTok := s.data.map RTok.lit

/-- `r"Season (\d*) - Race (\d*) \((\w* - \d*)\)"` (race identity line). -/
def identityPattern : List RTok :=
  lits "Season " ++ [RTok.capDigits] ++ lits " - Race " ++ [RTok.capDigits] ++
    lits " (" ++ [RTok.capWordDashDigits] ++ lits ")"

/-- `re.search` of the identity pattern, with its three groups. -/
def identitySearch (s : String) : Option (String × String × String) :=
  match reSearch identityPattern s.data with
  | some [a, b, c] => some (a, b, c)
  | _ => none

/-- `r"id=(\d*)"` (track id inside the track link's `href`). -/
def trackIdPattern : List RTok := lits "id=" ++ [RTok.capDigits]

/-- `re.search` of the track-id pattern, group 1. -/
def trackIdSearch (s : String) : Option String :=
  match reSearch trackIdPattern s.data with
  | some [a] => some a
  | _ => none

/-- `r"Temp: (\d*)°C\s*Humidity: (\d*)%"` (per-qualifying weather cell). -/
def qualWeatherPattern : List RTok :=
  lits "Temp: " ++ [RTok.capDigits] ++ lits "°C" ++ [RTok.wsStar] ++
    lits "Humidity: " ++ [RTok.capDigits] ++ lits "%"

/-- `re.search` of the qualifying weather pattern, with its two groups. -/
def qualWeatherSearch (s : String) : Option (String × String) :=
  match reSearch qualWeatherPattern s.data with
  | some [a, b] => some (a, b)
  | _ => none

/-- The six groups of the forecast pattern. -/
structure ForecastMatch where
  g1 : String
  g2 : String
  g3 : String
  g4 : String
  g5 : String
  g6 : String
deriving DecidableEq, Repr

/-- `r"Temp:\s*(\d*)°\s*-\s*(\d*)°\s*Humidity:\s*(\d*)%\s*-\s*(\d*)%\s*Rain\s*probability:\s*(\d*)%\s*-?\s*(\d*)%?"`
(forecast cell).  The trailing `-?\s*(\d*)%?` lets group 6 match the empty
string when the upper rain bound is textually absent. -/
def forecastPattern : List RTok :=
  lits "Temp:" ++ [RTok.wsStar, RTok.capDigits] ++ lits "°" ++ [RTok.wsStar] ++
    lits "-" ++ [RTok.wsStar, RTok.capDigits] ++ lits "°" ++ [RTok.wsStar] ++
    lits "Humidity:" ++ [RTok.wsStar, RTok.capDigits] ++ lits "%" ++
    [RTok.wsStar] ++ lits "-" ++ [RTok.wsStar, RTok.capDigits] ++ lits "%" ++
    [RTok.wsStar] ++ lits "Rain" ++ [RTok.wsStar] ++ lits "probability:" ++
    [RTok.wsStar, RTok.capDigits] ++ lits "%" ++
    [RTok.wsStar, RTok.optLit '-', RTok.wsStar, RTok.capDigits, RTok.optLit '%']

/-- `re.search` of the forecast pattern, with its six groups. -/
def forecastSearch (s : String) : Option ForecastMatch :=
  match reSearch forecastPattern s.data with
  | some [a, b, c, d, e, f] => some ⟨a, b, c, d, e, f⟩
  | _ => none

/-! ## Document model

The embedding records exactly the access results the Python code draws from
the BeautifulSoup tree. -/

/-- One `td` cell: its (already extracted) text, and the attribute map of a
child `img` element when one exists. -/
structure Cell where
  text : String := ""
  img : Option (List (String × String)) := none
deriving DecidableEq, Repr

/-- One `tr` row: its `td` cells in order. -/
structure Row where
  cells : List Cell
deriving DecidableEq, Repr

/-- A table reached from a header `th` via `.parent.parent`: its `tr` rows
in order (`tr:nth-of-type(k)` is `rows[k-1]`). -/
structure Table where
  rows : List Row
deriving DecidableEq, Repr

/-- A parsed race-analysis page, restricted to what the scraper accesses:
the text of `select_one(".center")`, the text and `href` of
`select_one(".block > a:nth-child(7)")`, the text of `select_one(".block")`,
and the tables indexed by the exact text of their header `th`
(`find("th", text=...)` followed by `.parent.parent`). -/
structure Doc where
  center : Option String := none
  blockLink : Option (String × Option String) := none
  blockText : Option String := none
  tables : List (String × Table) := []
deriving DecidableEq, Repr

/-- `find("th", text=label).parent.parent`: the table of the first header
cell whose text equals `label`, if any. -/
def findTable (doc : Doc) (label : String) : Option Table :=
  match doc.tables.filter (fun p => p.1 = label) with
  | [] => none
  | p :: _ => some p.2

/-- `select_one("tr:nth-of-type(k)")` on a table. -/
def selectRow (t : Table) (k : Nat) : Option Row :=
  t.rows.get? (k - 1)

/-- `select_one("tr:nth-of-type(r) > td:nth-of-type(c)")` on a table. -/
def selectCell (t : Table) (r c : Nat) : Option Cell := do
  let row ← selectRow t r
  row.cells.get? (c - 1)

/-- Attribute access on a possibly-`None` lookup result: Python raises
`AttributeError` when the receiver is `None`. -/
def getAttr {α : Type} : Option α → Except PyErr α
  | some v => Except.ok v
  | none => Except.error PyErr.attributeError

/-- `select_one("... > img").attrs["title"]` on a cell: `AttributeError` when
the `img` child is missing, `KeyError` when it has no `title` attribute. -/
def cellImgTitle (c : Cell) : Except PyErr String := do
  let attrs ← getAttr c.img
  match attrs.lookup "title" with
  | some v => Except.ok v
  | none => Except.error PyErr.keyError

/-- `[f x for x in xs]` where `f` may raise: stop at the first error. -/
def mapExcept {α β : Type} (f : α → Except PyErr β) : List α → Except PyErr (List β)
  | [] => Except.ok []
  | x :: xs => do
      let y ← f x
      let ys ← mapExcept f xs
      Except.ok (y :: ys)

/-- `list.pop(0)`: the removed head and the remainder; `IndexError` on an
empty list. -/
def listPop0 {α : Type} : List α → Except PyErr (α × List α)
  | [] => Except.error PyErr.indexError
  | x :: xs => Except.ok (x, xs)

/-- `list.pop()`: the removed last element and the remainder; `IndexError`
on an empty list. -/
def listPopLast {α : Type} (l : List α) : Except PyErr (α × List α) :=
  match l.reverse with
  | [] => Except.error PyErr.indexError
  | x :: xs => Except.ok (x, xs.reverse)

/-- `list[0]`: `IndexError` on an empty list. -/
def listIndex0 {α : Type} : List α → Except PyErr α
  | [] => Except.error PyErr.indexError
  | x :: _ => Except.ok x

/-! ## Data model (the dataclasses of the source)

Python `datetime.timedelta` values never get constructed by the scraper; the
type is embedded as an abstract integral duration. -/

/-- Stand-in for `datetime.timedelta` (never constructed by the scraper). -/
abbrev Timedelta := Int

/-- A runtime value held by a dynamically-typed dataclass field.  The source
annotates the weather-forecast fields `int` but assigns raw regex-group
strings to them, so the embedding records which kind actually arrived. -/
inductive PyVal where
  | intV (i : Int)
  | strV (s : String)
deriving DecidableEq, Repr

structure DriverDataClass where
  name : String
  oa : Int
  concentration : Int
  talent : Int
  aggressiveness : Int
  experience : Int
  technical_insight : Int
  stamina : Int
  charisma : Int
  motivation : Int
  reputation : Int
  weight : Int
deriving DecidableEq, Repr

structure SetupDataClass where
  tyre : String
  front_wing : Int
  rear_wing : Int
  engine : Int
  brakes : Int
  gearbox : Int
  suspension : Int
deriving DecidableEq, Repr

structure PracticeLapDataClass where
  setup : SetupDataClass
  lap_time : Timedelta
  net_time : Timedelta
  driver_mistake : Timedelta
  comments : String
deriving DecidableEq, Repr

structure RaceRiskData where
  overtake : Option Int := none
  defend : Option Int := none
  clear : Option Int := none
  malfunction : Option Int := none
deriving DecidableEq, Repr

structure EnergyDataClass where
  q1_pre : Option Int := none
  q1_post : Option Int := none
  q2_pre : Option Int := none
  q2_post : Option Int := none
  race_pre : Option Int := none
  race_post : Option Int := none
deriving DecidableEq, Repr

structure CcpDataClass where
  power : Option Int := none
  handling : Option Int := none
  acceleration : Option Int := none
deriving DecidableEq, Repr

structure TyreSupplierDataClass where
  name : String
  peak_temperature : Int
  dry : Int
  wet : Int
  durability : Int
  warmup : Int
deriving DecidableEq, Repr

structure QualifyingData where
  setup : Option SetupDataClass := none
  fuel : Option Int := none
  risk : Option String := none
  temperature : Option Int := none
  humidity : Option Int := none
  weather : Option String := none
  lap_time : Option Timedelta := none
deriving DecidableEq, Repr

/-- `WeatherForecastData`: six fields annotated `int = None` in the source.
The embedding stores the runtime value (`PyVal`), since the source assigns
regex-group strings here. -/
structure WeatherForecastData where
  temperature_min : Option PyVal := none
  temperature_max : Option PyVal := none
  humidity_min : Option PyVal := none
  humidity_max : Option PyVal := none
  rain_min : Option PyVal := none
  rain_max : Option PyVal := none
deriving DecidableEq, Repr

structure PitStopData where
  lap : Option Int := none
  reason : Option String := none
  tyre_condition : Option Int := none
  fuel_left_percent : Option Int := none
  fuel_refilled : Option Int := none
  time : Option Timedelta := none
deriving DecidableEq, Repr

structure TechProblemData where
  lap : Option Int := none
  details : Option String := none
deriving DecidableEq, Repr

structure OvertakingData where
  initiated_blocked : Option Int := none
  initiated_successful : Option Int := none
  on_you_blocked : Option Int := none
  on_you_successful : Option Int := none
deriving DecidableEq, Repr

structure FinancesData where
  total_income : Option Int := none
  race_position : Option Int := none
  qualifying_position : Option Int := none
  sponsor : Option Int := none
  driver_salary : Option Int := none
  staff_salary : Option Int := none
  facility_cost : Option Int := none
  tyre_cost : Option Int := none
deriving DecidableEq, Repr

structure CarPartData where
  chassis : Option Int := none
  engine : Option Int := none
  front_wing : Option Int := none
  rear_wing : Option Int := none
  underbody : Option Int := none
  sidepods : Option Int := none
  cooling : Option Int := none
  gearbox : Option Int := none
  brakes : Option Int := none
  suspension : Option Int := none
  electronics : Option Int := none
deriving DecidableEq, Repr

structure LapData where
  lap : Option Int := none
  boost : Option Bool := none
  time : Option Timedelta := none
  position : Option Int := none
  tyres : Option String := none
  weather : Option String := none
  temperature : Option Int := none
  humidity : Option Int := none
  events : Option String := none
deriving DecidableEq, Repr

structure RaceAnalysisData where
  track_name : Option String := none
  track_id : Option String := none
  season : Option Int := none
  race : Option Int := none
  group : Option String := none
  practice : List PracticeLapDataClass := []
  qualifying1 : QualifyingData := {}
  qualifying2 : QualifyingData := {}
  setup_race : Option SetupDataClass := none
  risk_race : Option RaceRiskData := none
  driver_stats : Option DriverDataClass := none
  driver_change : Option DriverDataClass := none
  energy : Option EnergyDataClass := none
  position_start : Option Int := none
  position_finish : Option Int := none
  ccp : Option CcpDataClass := none
  tyre_supplier : Option TyreSupplierDataClass := none
  weather : List WeatherForecastData := []
  pitstops : List PitStopData := []
  problems : List TechProblemData := []
  tyre_condition_finish : Option Int := none
  fuel_start : Option Int := none
  fuel_left_finish : Option Int := none
  overtaking : Option OvertakingData := none
  finances : Option FinancesData := none
  car_part_levels : Option CarPartData := none
  car_part_wear_start : Option CarPartData := none
  car_part_wear_finish : Option CarPartData := none
  lap_chart : List LapData := []
  notes : Option String := none
deriving DecidableEq, Repr

/-- `DriverDataClass(name, *stats)`: exactly eleven positional stats, else
Python raises `TypeError`. -/
def mkDriver (name : String) : List Int → Except PyErr DriverDataClass
  | [a, b, c, d, e, f, g, h, i, j, k] =>
      Except.ok ⟨name, a, b, c, d, e, f, g, h, i, j, k⟩
  | _ => Except.error PyErr.typeError

/-- `SetupDataClass(tyre, *levels)`: exactly six positional levels, else
`TypeError`. -/
def mkSetup (tyre : String) : List Int → Except PyErr SetupDataClass
  | [a, b, c, d, e, f] => Except.ok ⟨tyre, a, b, c, d, e, f⟩
  | _ => Except.error PyErr.typeError

/-- `CarPartData(*values)`: exactly eleven positional values, else
`TypeError`. -/
def mkCarPart : List Int → Except PyErr CarPartData
  | [a, b, c, d, e, f, g, h, i, j, k] =>
      Except.ok ⟨a, b, c, d, e, f, g, h, i, j, k⟩
  | _ => Except.error PyErr.typeError

/-! ## Cache (the `saved_data` dict) -/

/-- A `(season, race)` key of `saved_data`; the components are the raw
arguments of the call, which may be `None`. -/
abbrev Coord := Option Int × Option Int

/-- The `saved_data` cache, as an association list in insertion order. -/
abbrev Cache := List (Coord × RaceAnalysisData)

/-- Python `dict` read: the value stored at `k`, if any. -/
def dictGet {β : Type} : List (Coord × β) → Coord → Option β
  | [], _ => none
  | (k', v) :: rest, k => if k' = k then some v else dictGet rest k

/-- Python `dict` write: overwrite in place when the key is present,
otherwise append. -/
def dictSet {β : Type} : List (Coord × β) → Coord → β → List (Coord × β)
  | [], k, v => [(k, v)]
  | (k', v') :: rest, k, v =>
      if k' = k then (k, v) :: rest else (k', v') :: dictSet rest k v

/-! ## URL addressing and the non-participation sentinel -/

/-- The most-recent-report URL. -/
def mostRecentUrl : String := "https://gpro.net/gb/RaceAnalysis.asp"

/-- The URL for the report addressed by `(season, race)`. -/
def raceUrl (season race : Int) : String :=
  "https://gpro.net/gb/RaceAnalysis.asp?SR=" ++ intStr season ++ "," ++ intStr race

/-- `load_race_analysis` URL selection: both arguments absent fetches the
most recent report, both present fetches that coordinate, and a partially
specified coordinate raises
`ValueError("season and race must either both be provided or neither.")`
before any request. -/
def raceAnalysisUrl : Option Int → Option Int → Except PyErr String
  | none, none => Except.ok mostRecentUrl
  | some s, some r => Except.ok (raceUrl s r)
  | _, _ =>
      Except.error (PyErr.valueError
        "season and race must either both be provided or neither.")

/-- `f"You did not participate in Season {season}, Race {race}"`, with the
arguments interpolated as Python renders them (`None` included). -/
def sentinelText (season race : Option Int) : String :=
  "You did not participate in Season " ++ pyStrOptInt season ++ ", Race " ++
    pyStrOptInt race

/-! ## Section extractors -/

/-- `int(ele.text.strip("() \n"))` strip set of the driver change row. -/
def parenStripChars : List Char := ['(', ')', ' ', '\n']

/-- `int(ele.text.strip("% \n)"))` strip set of the car-part wear rows. -/
def pctStripChars : List Char := ['%', ' ', '\n', ')']

/-- `_parse_race_analysis_setups`: rows 3, 4 and 5 of the table titled
`Setups used`; per row drop the leading label cell (`pop(0)`), pop the
trailing tyre cell, coerce the remaining six cells with `int`, and build the
three `SetupDataClass` values. -/
def parseSetupsSection (doc : Doc) :
    Except PyErr (SetupDataClass × SetupDataClass × SetupDataClass) := do
  let table ← getAttr (findTable doc "Setups used")
  let r3 ← getAttr (selectRow table 3)
  let r4 ← getAttr (selectRow table 4)
  let r5 ← getAttr (selectRow table 5)
  let q1 := r3.cells.map (fun c => pyStripWS c.text)
  let q2 := r4.cells.map (fun c => pyStripWS c.text)
  let ra := r5.cells.map (fun c => pyStripWS c.text)
  let p1 ← listPop0 q1
  let t1 ← listPopLast p1.2
  let p2 ← listPop0 q2
  let t2 ← listPopLast p2.2
  let p3 ← listPop0 ra
  let t3 ← listPopLast p3.2
  let l1 ← mapExcept pyInt t1.2
  let l2 ← mapExcept pyInt t2.2
  let l3 ← mapExcept pyInt t3.2
  let s1 ← mkSetup t1.1 l1
  let s2 ← mkSetup t2.1 l2
  let s3 ← mkSetup t3.1 l3
  Except.ok (s1, s2, s3)

/-- `_parse_race_analysis_driver`: row 3 of the table titled
`Driver attributes` is the driver name followed by eleven integer stats; row
4, when present, is eleven parenthesised deltas sharing the same name.  The
`try`/`except AttributeError` of the source converts exactly an
`AttributeError` of the row-4 block into `driver_changes = None`; any other
error (a `ValueError` of `int`, a `TypeError` of the constructor) still
propagates. -/
def parseDriverSection (doc : Doc) :
    Except PyErr (DriverDataClass × Option DriverDataClass) := do
  let table ← getAttr (findTable doc "Driver attributes")
  let row3 ← getAttr (selectRow table 3)
  let infoList := row3.cells.map (fun c => pyStripWS c.text)
  let name ← listIndex0 infoList
  let statList ← mapExcept pyInt (infoList.drop 1)
  let driverStats ← mkDriver name statList
  let driverChange ←
    match (do
        let row4 ← getAttr (selectRow table 4)
        let chList ← mapExcept (fun c => pyInt (pyStrip parenStripChars c.text))
          row4.cells
        mkDriver name chList : Except PyErr DriverDataClass) with
    | Except.ok d => Except.ok (some d)
    | Except.error PyErr.attributeError => Except.ok none
    | Except.error e => Except.error e
  Except.ok (driverStats, driverChange)

/-- `_parse_race_analysis_car_parts`: rows 3, 5 and 7 of the table titled
`Car parts level` give the eleven component levels (`int` of the stripped
text) and the start/finish wear (`int` after stripping `"% \n)"`). -/
def parseCarPartsSection (doc : Doc) :
    Except PyErr (CarPartData × CarPartData × CarPartData) := do
  let table ← getAttr (findTable doc "Car parts level")
  let r3 ← getAttr (selectRow table 3)
  let lvl ← mapExcept (fun c => pyInt (pyStripWS c.text)) r3.cells
  let levels ← mkCarPart lvl
  let r5 ← getAttr (selectRow table 5)
  let sw ← mapExcept (fun c => pyInt (pyStrip pctStripChars c.text)) r5.cells
  let startWear ← mkCarPart sw
  let r7 ← getAttr (selectRow table 7)
  let fw ← mapExcept (fun c => pyInt (pyStrip pctStripChars c.text)) r7.cells
  let finishWear ← mkCarPart fw
  Except.ok (levels, startWear, finishWear)

/-- One qualifying session's weather reading: the `title` of the cell's
`img` plus `int` of the two groups of the `Temp/Humidity` pattern. -/
structure QualWeather where
  label : String
  temperature : Int
  humidity : Int
deriving DecidableEq, Repr

/-- The weather cell of one qualifying session. -/
def parseQualWeatherCell (c : Cell) : Except PyErr QualWeather := do
  let label ← cellImgTitle c
  let m ← getAttr (qualWeatherSearch c.text)
  let temp ← pyInt m.1
  let hum ← pyInt m.2
  Except.ok ⟨label, temp, hum⟩

/-- One forecast cell: the six regex groups are stored *as matched* (raw
strings); when group 6 is empty (falsy in Python), `rain_max` reuses group
5. -/
def forecastOfCell (text : String) : Except PyErr WeatherForecastData := do
  let m ← getAttr (forecastSearch text)
  Except.ok
    { temperature_min := some (PyVal.strV m.g1)
      temperature_max := some (PyVal.strV m.g2)
      humidity_min := some (PyVal.strV m.g3)
      humidity_max := some (PyVal.strV m.g4)
      rain_min := some (PyVal.strV m.g5)
      rain_max := some (PyVal.strV (if m.g6 ≠ "" then m.g6 else m.g5)) }

/-- The weather block of `parse_race_analysis`: the table titled
`Sessions weather`; cells (3,1) and (3,2) carry the two qualifying weather
readings, cells (6,1), (6,2), (8,1) and (8,2) the four forecasts. -/
def parseWeatherSection (doc : Doc) :
    Except PyErr (QualWeather × QualWeather ×
      WeatherForecastData × WeatherForecastData ×
      WeatherForecastData × WeatherForecastData) := do
  let table ← getAttr (findTable doc "Sessions weather")
  let c31 ← getAttr (selectCell table 3 1)
  let q1 ← parseQualWeatherCell c31
  let c32 ← getAttr (selectCell table 3 2)
  let q2 ← parseQualWeatherCell c32
  let c61 ← getAttr (selectCell table 6 1)
  let f1 ← forecastOfCell c61.text
  let c62 ← getAttr (selectCell table 6 2)
  let f2 ← forecastOfCell c62.text
  let c81 ← getAttr (selectCell table 8 1)
  let f3 ← forecastOfCell c81.text
  let c82 ← getAttr (selectCell table 8 2)
  let f4 ← forecastOfCell c82.text
  Except.ok (q1, q2, f1, f2, f3, f4)

/-! ## Report assembler (`parse_race_analysis`) -/

/-- The participation check at the head of `parse_race_analysis`: the text
of `select_one(".center")` compared against the sentinel for the *requested*
arguments; equality raises `NotRacedError` with that same text. -/
def checkSentinel (doc : Doc) (season race : Option Int) : Except PyErr Unit := do
  let centerText ← getAttr doc.center
  if centerText = sentinelText season race then
    Except.error (PyErr.notRacedError (sentinelText season race))
  else
    Except.ok ()

/-- The identity fields read from the page: track link text, track id from
the link's `href`, and the three groups of the identity pattern on the
`.block` text (season and race via `int`). -/
structure IdentityInfo where
  trackName : String
  trackId : String
  seasonNum : Int
  raceNum : Int
  groupLabel : String
deriving DecidableEq, Repr

/-- The basic-info block of `parse_race_analysis` (lines 260–268 of the
source): `.block > a:nth-child(7)` text and `href` (a missing `href` makes
`re.search` receive `None`, a `TypeError`), then the identity pattern on the
`.block` text. -/
def parseIdentity (doc : Doc) : Except PyErr IdentityInfo := do
  let link ← getAttr doc.blockLink
  let href ← (match link.2 with
    | some h => Except.ok h
    | none => Except.error PyErr.typeError)
  let tid ← getAttr (trackIdSearch href)
  let bt ← getAttr doc.blockText
  let idg ← getAttr (identitySearch bt)
  let sNum ← pyInt idg.1
  let rNum ← pyInt idg.2.1
  Except.ok ⟨link.1, tid, sNum, rNum, idg.2.2⟩

/-- Merge the section results into the `RaceAnalysisData` record exactly as
`parse_race_analysis` assigns them; all other fields keep their dataclass
defaults. -/
def assembleRecord (idf : IdentityInfo)
    (setups : SetupDataClass × SetupDataClass × SetupDataClass)
    (driver : DriverDataClass × Option DriverDataClass)
    (carParts : CarPartData × CarPartData × CarPartData)
    (weather : QualWeather × QualWeather ×
      WeatherForecastData × WeatherForecastData ×
      WeatherForecastData × WeatherForecastData) : RaceAnalysisData :=
  { track_name := some idf.trackName
    track_id := some idf.trackId
    season := some idf.seasonNum
    race := some idf.raceNum
    group := some idf.groupLabel
    qualifying1 :=
      { setup := some setups.1
        temperature := some weather.1.temperature
        humidity := some weather.1.humidity
        weather := some weather.1.label }
    qualifying2 :=
      { setup := some setups.2.1
        temperature := some weather.2.1.temperature
        humidity := some weather.2.1.humidity
        weather := some weather.2.1.label }
    setup_race := some setups.2.2
    driver_stats := some driver.1
    driver_change := driver.2
    weather := [weather.2.2.1, weather.2.2.2.1, weather.2.2.2.2.1, weather.2.2.2.2.2]
    car_part_levels := some carParts.1
    car_part_wear_start := some carParts.2.1
    car_part_wear_finish := some carParts.2.2 }

/-- The document-processing body of `parse_race_analysis`: sentinel check,
identity block, then the section extractors in source order. -/
def parseDoc (doc : Doc) (season race : Option Int) :
    Except PyErr RaceAnalysisData := do
  checkSentinel doc season race
  let idf ← parseIdentity doc
  let setups ← parseSetupsSection doc
  let driver ← parseDriverSection doc
  let carParts ← parseCarPartsSection doc
  let weather ← parseWeatherSection doc
  Except.ok (assembleRecord idf setups driver carParts weather)

/-- `parse_race_analysis`: build the URL (which may raise before any
request), fetch the document from the session oracle, process it, and on
success store the record in `saved_data` under the *requested* `(season,
race)` pair.  Returns the Python result, the cache after the call, and the
list of URLs requested. -/
def parse_race_analysis (env : String → Doc) (st : Cache)
    (season race : Option Int) :
    Except PyErr RaceAnalysisData × Cache × List String :=
  match raceAnalysisUrl season race with
  | Except.error e => (Except.error e, st, [])
  | Except.ok url =>
      match parseDoc (env url) season race with
      | Except.error e => (Except.error e, st, [url])
      | Except.ok data => (Except.ok data, dictSet st (season, race) data, [url])

/-- The result component of `parse_race_analysis`, which depends only on the
oracle and the coordinate (the cache is never read by it). -/
def fetchOutcome (env : String → Doc) (season race : Option Int) :
    Except PyErr RaceAnalysisData :=
  match raceAnalysisUrl season race with
  | Except.error e => Except.error e
  | Except.ok url => parseDoc (env url) season race

/-- `get_race_analysis`: return the cached record for `(season, race)` when
present (`KeyError` path otherwise), else delegate to
`parse_race_analysis`. -/
def get_race_analysis (env : String → Doc) (st : Cache)
    (season race : Option Int) :
    Except PyErr RaceAnalysisData × Cache × List String :=
  match dictGet st (season, race) with
  | some d => (Except.ok d, st, [])
  | none => parse_race_analysis env st season race

/-! ## History walker -/

/-- `True` exactly on `Except.ok`. -/
def isOk {α : Type} : Except PyErr α → Bool
  | Except.ok _ => true
  | Except.error _ => false

/-- `True` exactly on a `NotRacedError` result. -/
def isNotRaced {α : Type} : Except PyErr α → Bool
  | Except.error (PyErr.notRacedError _) => true
  | _ => false

/-- The race numbers probed by `parse_season_race_analysis`:
`range(1, 18)`. -/
def raceNums : List Int := (List.range' 1 17).map Int.ofNat

/-- The `for r in range(1, 18)` loop of `parse_season_race_analysis`: each
coordinate's fetch result is stored in `results`, a `NotRacedError` skips the
coordinate, and any other error propagates (aborting the loop). -/
def seasonLoop (env : String → Doc) (season : Option Int) :
    List Int → Cache → Cache → List String →
    Except PyErr Cache × Cache × List String
  | [], st, acc, urls => (Except.ok acc, st, urls)
  | r :: rest, st, acc, urls =>
      match parse_race_analysis env st season (some r) with
      | (Except.ok data, st', u) =>
          seasonLoop env season rest st' (dictSet acc (season, some r) data)
            (urls ++ u)
      | (Except.error (PyErr.notRacedError _), st', u) =>
          seasonLoop env season rest st' acc (urls ++ u)
      | (Except.error e, st', u) => (Except.error e, st', urls ++ u)

/-- `parse_season_race_analysis`: first fetch the most recent report (its
value is discarded, but an error there propagates), then walk races 1–17 of
the given season. -/
def parse_season_race_analysis (env : String → Doc) (st : Cache)
    (season : Option Int) : Except PyErr Cache × Cache × List String :=
  match parse_race_analysis env st none none with
  | (Except.error e, st', u) => (Except.error e, st', u)
  | (Except.ok _, st', u) => seasonLoop env season raceNums st' [] u

/-! ## Result projections (used to state concrete consequences) -/

/-- The `season` field of a successful result. -/
def resultSeason (e : Except PyErr RaceAnalysisData) : Option Int :=
  match e with
  | Except.ok d => d.season
  | Except.error _ => none

/-- The `race` field of a successful result. -/
def resultRace (e : Except PyErr RaceAnalysisData) : Option Int :=
  match e with
  | Except.ok d => d.race
  | Except.error _ => none

/-- The `weather` forecasts of a successful result. -/
def resultWeather (e : Except PyErr RaceAnalysisData) : List WeatherForecastData :=
  match e with
  | Except.ok d => d.weather
  | Except.error _ => []

/-! ## Basic lemmas about the monadic plumbing -/

@[simp]
theorem ok_bind {α β : Type} (a : α) (f : α → Except PyErr β) :
    (Except.ok a : Except PyErr α) >>= f = f a := rfl

@[simp]
theorem error_bind {α β : Type} (e : PyErr) (f : α → Except PyErr β) :
    (Except.error e : Except PyErr α) >>= f = Except.error e := rfl

theorem bindOk {α β : Type} {e : Except PyErr α} {f : α → Except PyErr β} {b : β}
    (h : e >>= f = Except.ok b) : ∃ a, e = Except.ok a ∧ f a = Except.ok b := by
  cases e with
  | ok a => exact ⟨a, rfl, h⟩
  | error e => simp at h

theorem getAttr_ok {α : Type} {o : Option α} {v : α}
    (h : getAttr o = Except.ok v) : o = some v := by
  cases o with
  | some w => cases h; rfl
  | none => cases h

/-! ## Dict lemmas (`saved_data` and walker results) -/

theorem dictGet_dictSet_self {β : Type} (st : List (Coord × β)) (k : Coord) (v : β) :
    dictGet (dictSet st k v) k = some v := by
  induction st with
  | nil => simp [dictGet, dictSet]
  | cons p rest ih =>
      by_cases h : p.1 = k
      · simp [dictSet, dictGet, h]
      · simpa [dictSet, dictGet, h] using ih

theorem dictGet_dictSet_ne {β : Type} (st : List (Coord × β)) (k k' : Coord) (v : β)
    (h : k' ≠ k) : dictGet (dictSet st k v) k' = dictGet st k' := by
  have hne : ¬ k = k' := fun h' => h h'.symm
  induction st with
  | nil => simp [dictGet, dictSet, hne]
  | cons p rest ih =>
      obtain ⟨pk, pv⟩ := p
      by_cases hp : pk = k
      · rw [hp]
        simp [dictSet, dictGet, hne]
      · simp only [dictSet, if_neg hp, dictGet]
        by_cases hp' : pk = k'
        · simp [hp']
        · simp [hp', ih]

theorem dictSet_keys_of_get_none {β : Type} {st : List (Coord × β)} {k : Coord}
    (v : β) (h : dictGet st k = none) :
    (dictSet st k v).map Prod.fst = st.map Prod.fst ++ [k] := by
  induction st with
  | nil => simp [dictSet]
  | cons p rest ih =>
      obtain ⟨pk, pv⟩ := p
      by_cases hp : pk = k
      · simp [dictGet, hp] at h
      · simp only [dictGet, if_neg hp] at h
        simp [dictSet, if_neg hp, ih h]

theorem dictSet_keys_of_get_some {β : Type} {st : List (Coord × β)} {k : Coord}
    {w : β} (v : β) (h : dictGet st k = some w) :
    (dictSet st k v).map Prod.fst = st.map Prod.fst := by
  induction st with
  | nil => simp [dictGet] at h
  | cons p rest ih =>
      obtain ⟨pk, pv⟩ := p
      by_cases hp : pk = k
      · simp [dictSet, hp]
      · simp only [dictGet, if_neg hp] at h
        simp [dictSet, if_neg hp, ih h]

theorem not_mem_keys_of_dictGet_none {β : Type} {st : List (Coord × β)} {k : Coord}
    (h : dictGet st k = none) : k ∉ st.map Prod.fst := by
  induction st with
  | nil => simp
  | cons p rest ih =>
      obtain ⟨pk, pv⟩ := p
      by_cases hp : pk = k
      · simp [dictGet, hp] at h
      · simp only [dictGet, if_neg hp] at h
        have hne : ¬ k = pk := fun h' => hp h'.symm
        simp [hne, ih h]

theorem dictSet_nodup_keys {β : Type} {st : List (Coord × β)} {k : Coord} (v : β)
    (h : (st.map Prod.fst).Nodup) : ((dictSet st k v).map Prod.fst).Nodup := by
  cases hg : dictGet st k with
  | none =>
      rw [dictSet_keys_of_get_none v hg]
      refine List.Nodup.append h (List.nodup_singleton k) ?_
      intro a ha hb
      rw [List.mem_singleton] at hb
      rw [hb] at ha
      exact not_mem_keys_of_dictGet_none hg ha
  | some w => rw [dictSet_keys_of_get_some v hg]; exact h

/-! ## Basic facts about `parse_race_analysis` -/

theorem parse_race_analysis_fst (env : String → Doc) (st : Cache)
    (season race : Option Int) :
    (parse_race_analysis env st season race).1 = fetchOutcome env season race := by
  unfold parse_race_analysis fetchOutcome
  split
  · rfl
  · split <;> (rename_i heq; rw [heq])

theorem parse_race_analysis_ok_cache {env : String → Doc} {st : Cache}
    {season race : Option Int} {d : RaceAnalysisData} {st' : Cache} {u : List String}
    (h : parse_race_analysis env st season race = (Except.ok d, st', u)) :
    st' = dictSet st (season, race) d := by
  unfold parse_race_analysis at h
  split at h
  · simp at h
  · split at h
    · simp at h
    · simp only [Prod.mk.injEq, Except.ok.injEq] at h
      rw [← h.1, h.2.1]

theorem parse_race_analysis_err_cache {env : String → Doc} {st : Cache}
    {season race : Option Int}
    (h : isOk (parse_race_analysis env st season race).1 = false) :
    (parse_race_analysis env st season race).2.1 = st := by
  unfold parse_race_analysis at h ⊢
  split at h
  · rfl
  · split at h
    · rfl
    · simp [isOk] at h

/-! ## Inversion lemmas for a successful parse -/

theorem parseIdentity_ok {doc : Doc} {idf : IdentityInfo}
    (h : parseIdentity doc = Except.ok idf) :
    ∃ (bt : String) (g : String × String × String), doc.blockText = some bt ∧
      identitySearch bt = some (g.1, g.2.1, g.2.2) ∧
      pyInt g.1 = Except.ok idf.seasonNum ∧ pyInt g.2.1 = Except.ok idf.raceNum := by
  unfold parseIdentity at h
  obtain ⟨link, hlink, h⟩ := bindOk h
  obtain ⟨href, hhref, h⟩ := bindOk h
  obtain ⟨tid, htid, h⟩ := bindOk h
  obtain ⟨bt, hbt, h⟩ := bindOk h
  obtain ⟨idg, hidg, h⟩ := bindOk h
  obtain ⟨sNum, hs, h⟩ := bindOk h
  obtain ⟨rNum, hr, h⟩ := bindOk h
  cases h
  exact ⟨bt, idg, getAttr_ok hbt, getAttr_ok hidg, hs, hr⟩

theorem parseDoc_ok_fields {doc : Doc} {season race : Option Int}
    {data : RaceAnalysisData} (h : parseDoc doc season race = Except.ok data) :
    ∃ idf, parseIdentity doc = Except.ok idf ∧
      data.season = some idf.seasonNum ∧ data.race = some idf.raceNum := by
  unfold parseDoc at h
  obtain ⟨u, hu, h⟩ := bindOk h
  obtain ⟨idf, hidf, h⟩ := bindOk h
  obtain ⟨setups, hs, h⟩ := bindOk h
  obtain ⟨driver, hd, h⟩ := bindOk h
  obtain ⟨carParts, hc, h⟩ := bindOk h
  obtain ⟨weather, hw, h⟩ := bindOk h
  cases h
  exact ⟨idf, hidf, rfl, rfl⟩

/-- The coordinate a document states about itself: the season/race read from
its `.block` text by the identity pattern, when they parse as integers. -/
def docIdentity (doc : Doc) : Option (Int × Int) :=
  match doc.blockText with
  | none => none
  | some bt =>
      match identitySearch bt with
      | none => none
      | some (a, b, _) =>
          match pyInt a, pyInt b with
          | Except.ok s, Except.ok r => some (s, r)
          | _, _ => none

/-! ## Concrete document fixtures (used by the closed witness theorems) -/

/-- A table row whose cells carry the given texts (and no images). -/
def goodRow (xs : List String) : Row := ⟨xs.map (fun t => { text := t })⟩

/-- A fully well-formed race-analysis document for `(season, race)`:
participation occurred, every section present, driver-change row absent. -/
def goodDoc (season race : Int) : Doc :=
  { center := some "Race analysis"
    blockLink := some ("Suzuka", some "/gb/TrackDetails.asp?id=7")
    blockText := some ("Season " ++ intStr season ++ " - Race " ++ intStr race
      ++ " (Elite - 5)")
    tables :=
      [("Setups used", ⟨[goodRow [], goodRow [],
          goodRow ["Q1", "10", "20", "30", "40", "50", "60", "Soft"],
          goodRow ["Q2", "11", "21", "31", "41", "51", "61", "Medium"],
          goodRow ["Race", "12", "22", "32", "42", "52", "62", "Hard"]]⟩),
       ("Driver attributes", ⟨[goodRow [], goodRow [],
          goodRow ["Jo Do", "90", "1", "2", "3", "4", "5", "6", "7", "8", "9",
            "70"]]⟩),
       ("Car parts level", ⟨[goodRow [], goodRow [],
          goodRow ["1", "2", "3", "4", "5", "6", "7", "8", "9", "10", "11"],
          goodRow [],
          goodRow ["10%", "20%", "30%", "40%", "50%", "60%", "70%", "80%",
            "90%", "15%", "25%"],
          goodRow [],
          goodRow ["11%", "21%", "31%", "41%", "51%", "61%", "71%", "81%",
            "91%", "16%", "26%"]]⟩),
       ("Sessions weather", ⟨[goodRow [], goodRow [],
          ⟨[{ text := "Temp: 26°C Humidity: 10%", img := some [("title", "Sunny")] },
            { text := "Temp: 28°C Humidity: 15%", img := some [("title", "Cloudy")] }]⟩,
          goodRow [], goodRow [],
          goodRow ["Temp: 10° - 20° Humidity: 30% - 40% Rain probability: 0%",
            "Temp: 11° - 21° Humidity: 31% - 41% Rain probability: 5% - 10%"],
          goodRow [],
          goodRow ["Temp: 12° - 22° Humidity: 32% - 42% Rain probability: 1% - 2%",
            "Temp: 13° - 23° Humidity: 33% - 43% Rain probability: 3%"]]⟩)] }

/-- A document whose identity block carries the non-participation sentinel
for the concrete coordinate `(season, race)`. -/
def notRacedDoc (season race : Int) : Doc :=
  { center := some (sentinelText (some season) (some race)) }

/-- Claim C1: for every valid coordinate at which participation occurred
(i.e. the site serves for `(s, r)` a document that identifies itself as
season `s`, race `r`, and the fetch succeeds), the returned record's
`season` and `race` fields equal the coordinate's components. -/
theorem fetch_result_matches_coordinate (env : String → Doc) (st : Cache)
    (s r : Int) (data : RaceAnalysisData) (st' : Cache) (u : List String)
    (hdoc : docIdentity (env (raceUrl s r)) = some (s, r))
    (hok : parse_race_analysis env st (some s) (some r) = (Except.ok data, st', u)) :
    data.season = some s ∧ data.race = some r := by
  have hfst : parseDoc (env (raceUrl s r)) (some s) (some r) = Except.ok data := by
    have h := parse_race_analysis_fst env st (some s) (some r)
    rw [hok] at h
    exact h.symm
  obtain ⟨idf, hidf, hseason, hrace⟩ := parseDoc_ok_fields hfst
  obtain ⟨bt, g, hbt, hid, ha, hb⟩ := parseIdentity_ok hidf
  unfold docIdentity at hdoc
  rw [hbt] at hdoc
  simp only [hid, ha, hb] at hdoc
  obtain ⟨h1, h2⟩ := Prod.mk.injEq .. ▸ Option.some.inj hdoc
  rw [hseason, hrace, h1, h2]
  exact ⟨rfl, rfl⟩

/-- Witness for C1 at a concrete environment: fetching `(54, 14)` from a
site serving a well-formed Season 54 / Race 14 document yields a record with
those fields. -/
theorem fetch_result_matches_coordinate_witness :
    resultSeason (parse_race_analysis (fun _ => goodDoc 54 14) []
      (some 54) (some 14)).1 = some 54 ∧
    resultRace (parse_race_analysis (fun _ => goodDoc 54 14) []
      (some 54) (some 14)).1 = some 14 := by
  obtain ⟨data, st', u, hok⟩ :
      ∃ d st' u, parse_race_analysis (fun _ => goodDoc 54 14) []
        (some 54) (some 14) = (Except.ok d, st', u) := ⟨_, _, _, rfl⟩
  have hc := fetch_result_matches_coordinate (fun _ => goodDoc 54 14) []
    54 14 data st' u (by decide) hok
  rw [hok]
  exact ⟨by simpa [resultSeason] using hc.1, by simpa [resultRace] using hc.2⟩

/-- Claim C2: a document whose identity block carries the exact
non-participation sentinel for the requested coordinate makes the fetch
raise `NotRacedError` (with that sentinel as message), and the cache is
returned unchanged — in particular the entry for that coordinate stays
absent. -/
theorem sentinel_raises_notraced_cache_untouched (env : String → Doc)
    (st : Cache) (season race : Option Int) (url : String)
    (hurl : raceAnalysisUrl season race = Except.ok url)
    (hcen : (env url).center = some (sentinelText season race))
    (habs : dictGet st (season, race) = none) :
    parse_race_analysis env st season race =
      (Except.error (PyErr.notRacedError (sentinelText season race)), st, [url]) ∧
    dictGet (parse_race_analysis env st season race).2.1 (season, race) = none := by
  have hdoc : parseDoc (env url) season race =
      Except.error (PyErr.notRacedError (sentinelText season race)) := by
    unfold parseDoc checkSentinel
    rw [hcen]
    simp [getAttr]
  have h1 : parse_race_analysis env st season race =
      (Except.error (PyErr.notRacedError (sentinelText season race)), st, [url]) := by
    unfold parse_race_analysis
    rw [hurl]
    simp [hdoc]
  exact ⟨h1, by rw [h1]; exact habs⟩

/-- Witness for C2: fetching `(7, 3)` from a site serving the Season 7 /
Race 3 sentinel document raises `NotRacedError` and leaves the empty cache
empty. -/
theorem sentinel_raises_notraced_cache_untouched_witness :
    parse_race_analysis (fun _ => notRacedDoc 7 3) [] (some 7) (some 3) =
      (Except.error (PyErr.notRacedError (sentinelText (some 7) (some 3))), [],
        ["https://gpro.net/gb/RaceAnalysis.asp?SR=7,3"]) ∧
    dictGet (parse_race_analysis (fun _ => notRacedDoc 7 3) [] (some 7)
      (some 3)).2.1 ((some 7 : Option Int), (some 3 : Option Int)) = none :=
  sentinel_raises_notraced_cache_untouched (fun _ => notRacedDoc 7 3) []
    (some 7) (some 3) "https://gpro.net/gb/RaceAnalysis.asp?SR=7,3"
    (by decide) (by decide) rfl

/-- Claim C7: supplying exactly one of `(season, race)` fails with the
invalid-coordinate `ValueError` before any network request: the error is
returned, the cache is unchanged, and the list of requested URLs is empty. -/
theorem partial_coordinate_fails_before_network (env : String → Doc)
    (st : Cache) (s r : Int) :
    parse_race_analysis env st (some s) none =
      (Except.error (PyErr.valueError
        "season and race must either both be provided or neither."), st, []) ∧
    parse_race_analysis env st none (some r) =
      (Except.error (PyErr.valueError
        "season and race must either both be provided or neither."), st, []) :=
  ⟨rfl, rfl⟩

/-- Claim C8: `get_race_analysis` returns the cached record on a hit,
issuing no request; on a miss it is exactly `parse_race_analysis`; and after
a successful fetch the cached read returns precisely the fetched record,
which is also what fetching again would produce. -/
theorem get_race_analysis_cache_behaviour (env : String → Doc) (st : Cache)
    (season race : Option Int) :
    (∀ d, dictGet st (season, race) = some d →
      get_race_analysis env st season race = (Except.ok d, st, [])) ∧
    (dictGet st (season, race) = none →
      get_race_analysis env st season race = parse_race_analysis env st season race) ∧
    (∀ st0 d st1 u,
      parse_race_analysis env st0 season race = (Except.ok d, st1, u) →
      get_race_analysis env st1 season race = (Except.ok d, st1, []) ∧
      (parse_race_analysis env st1 season race).1 = Except.ok d) := by
  refine ⟨?_, ?_, ?_⟩
  · intro d hd
    unfold get_race_analysis
    rw [hd]
  · intro hd
    unfold get_race_analysis
    rw [hd]
  · intro st0 d st1 u hok
    have hst1 : st1 = dictSet st0 (season, race) d := parse_race_analysis_ok_cache hok
    have hget : dictGet st1 (season, race) = some d := by
      rw [hst1]; exact dictGet_dictSet_self st0 (season, race) d
    have hfetch : (parse_race_analysis env st1 season race).1 = Except.ok d := by
      rw [parse_race_analysis_fst env st1 season race,
        ← parse_race_analysis_fst env st0 season race, hok]
    refine ⟨?_, hfetch⟩
    unfold get_race_analysis
    rw [hget]

/-- Witness for C8: after fetching `(2, 3)` once, the cached read returns
the fetched record with no further request, equal to a repeated fetch's
result. -/
theorem get_race_analysis_cache_behaviour_witness :
    get_race_analysis (fun _ => goodDoc 2 3)
      (parse_race_analysis (fun _ => goodDoc 2 3) [] (some 2) (some 3)).2.1
      (some 2) (some 3) =
      ((parse_race_analysis (fun _ => goodDoc 2 3) [] (some 2) (some 3)).1,
        (parse_race_analysis (fun _ => goodDoc 2 3) [] (some 2) (some 3)).2.1,
        []) ∧
    isOk (parse_race_analysis (fun _ => goodDoc 2 3) [] (some 2) (some 3)).1
      = true := by
  obtain ⟨d, st1, u, hok⟩ :
      ∃ d st1 u, parse_race_analysis (fun _ => goodDoc 2 3) []
        (some 2) (some 3) = (Except.ok d, st1, u) := ⟨_, _, _, rfl⟩
  have h := (get_race_analysis_cache_behaviour (fun _ => goodDoc 2 3) []
    (some 2) (some 3)).2.2 [] d st1 u hok
  rw [hok]
  exact ⟨h.1, rfl⟩

/-- Claim C6 (amended): after every successful fetch the record is cached
under the *requested* `(season, race)` argument pair (Python-dict
insert-or-overwrite), so the entry for that key is the new record, and
distinctness of cache keys is preserved (at most one record per
coordinate). -/
theorem cache_insert_requested_key (env : String → Doc) (st : Cache)
    (season race : Option Int) (data : RaceAnalysisData) (st' : Cache)
    (u : List String)
    (hok : parse_race_analysis env st season race = (Except.ok data, st', u)) :
    st' = dictSet st (season, race) data ∧
    dictGet st' (season, race) = some data ∧
    ((st.map Prod.fst).Nodup → (st'.map Prod.fst).Nodup) := by
  have h := parse_race_analysis_ok_cache hok
  refine ⟨h, ?_, ?_⟩
  · rw [h]; exact dictGet_dictSet_self st (season, race) data
  · intro hn; rw [h]; exact dictSet_nodup_keys data hn

/-- Witness for C6 (amended) at a concrete fetch of `(2, 3)` into an empty
cache: the cache afterwards is exactly the one-entry dict keyed by the
requested pair. -/
theorem cache_insert_requested_key_witness :
    ((parse_race_analysis (fun _ => goodDoc 2 3) [] (some 2) (some 3)).2.1).map
      Prod.fst = [((some 2 : Option Int), (some 3 : Option Int))] ∧
    isOk (parse_race_analysis (fun _ => goodDoc 2 3) [] (some 2) (some 3)).1
      = true := by
  obtain ⟨d, st1, u, hok⟩ :
      ∃ d st1 u, parse_race_analysis (fun _ => goodDoc 2 3) []
        (some 2) (some 3) = (Except.ok d, st1, u) := ⟨_, _, _, rfl⟩
  have h := cache_insert_requested_key (fun _ => goodDoc 2 3) []
    (some 2) (some 3) d st1 u hok
  rw [hok]
  refine ⟨?_, rfl⟩
  rw [h.1]
  rfl

/-- Counterexample to C6 as stated: an omitted-coordinate fetch of a
document identifying itself as Season 54, Race 14 succeeds with those
resolved fields, yet the cache holds nothing under `(54, 14)` — the record
went in under the requested `(None, None)` pair instead. -/
theorem cache_key_not_resolved_counterexample :
    isOk (parse_race_analysis (fun _ => goodDoc 54 14) [] none none).1 = true ∧
    resultSeason (parse_race_analysis (fun _ => goodDoc 54 14) [] none none).1
      = some 54 ∧
    resultRace (parse_race_analysis (fun _ => goodDoc 54 14) [] none none).1
      = some 14 ∧
    dictGet (parse_race_analysis (fun _ => goodDoc 54 14) [] none none).2.1
      ((some 54 : Option Int), (some 14 : Option Int)) = none ∧
    dictGet (parse_race_analysis (fun _ => goodDoc 54 14) [] none none).2.1
      ((none : Option Int), (none : Option Int)) ≠ none := by
  refine ⟨rfl, rfl, rfl, rfl, ?_⟩
  decide

/-- Claim C4: for a forecast cell whose text matches the forecast pattern,
the stored rain bounds are exactly the matched groups — `rain_min` is group
5, and `rain_max` is group 6 when that is non-empty (both bounds present in
the text), else group 5 again; in particular a syntactically absent upper
bound yields `rain_max = rain_min`. -/
theorem forecast_open_ended_range_policy (t : String) (m : ForecastMatch)
    (fc : WeatherForecastData)
    (hm : forecastSearch t = some m)
    (hok : forecastOfCell t = Except.ok fc) :
    fc.rain_min = some (PyVal.strV m.g5) ∧
    fc.rain_max = some (PyVal.strV (if m.g6 ≠ "" then m.g6 else m.g5)) ∧
    (m.g6 = "" → fc.rain_max = fc.rain_min) := by
  unfold forecastOfCell at hok
  rw [hm] at hok
  simp only [getAttr, ok_bind, Except.ok.injEq] at hok
  subst hok
  refine ⟨rfl, rfl, ?_⟩
  intro h6
  simp [h6]

/-- The forecast-cell text of the C4 witness: rain lower bound only. -/
def rainOnlyCellText : String :=
  "Temp: 10° - 20° Humidity: 30% - 40% Rain probability: 25%"

/-- The record the scraper extracts from `rainOnlyCellText`. -/
def rainOnlyForecast : WeatherForecastData :=
  { temperature_min := some (PyVal.strV "10")
    temperature_max := some (PyVal.strV "20")
    humidity_min := some (PyVal.strV "30")
    humidity_max := some (PyVal.strV "40")
    rain_min := some (PyVal.strV "25")
    rain_max := some (PyVal.strV "25") }

/-- Witness for C4: the concrete rain-lower-bound-only cell yields equal
rain bounds. -/
theorem forecast_open_ended_range_policy_witness :
    rainOnlyForecast.rain_max = rainOnlyForecast.rain_min ∧
    forecastOfCell rainOnlyCellText = Except.ok rainOnlyForecast :=
  ⟨(forecast_open_ended_range_policy rainOnlyCellText
      ⟨"10", "20", "30", "40", "25", ""⟩ rainOnlyForecast
      (by decide) (by decide)).2.2 rfl,
    by decide⟩

/-- Claim C5 (code bug): the six `int`-annotated fields of
`WeatherForecastData` receive the raw regex-group *strings*, never passed
through `int` — here both for a standalone forecast cell with both rain
bounds present, and for the forecasts of a record returned by a fully
successful fetch. -/
theorem forecast_fields_hold_raw_strings :
    forecastOfCell
      "Temp: 10° - 20° Humidity: 30% - 40% Rain probability: 50% - 60%" =
      Except.ok
        { temperature_min := some (PyVal.strV "10")
          temperature_max := some (PyVal.strV "20")
          humidity_min := some (PyVal.strV "30")
          humidity_max := some (PyVal.strV "40")
          rain_min := some (PyVal.strV "50")
          rain_max := some (PyVal.strV "60") } ∧
    (resultWeather (parse_race_analysis (fun _ => goodDoc 54 14) []
      (some 54) (some 14)).1).head? =
      some
        { temperature_min := some (PyVal.strV "10")
          temperature_max := some (PyVal.strV "20")
          humidity_min := some (PyVal.strV "30")
          humidity_max := some (PyVal.strV "40")
          rain_min := some (PyVal.strV "0")
          rain_max := some (PyVal.strV "0") } := by
  exact ⟨rfl, rfl⟩

theorem mkDriver_ok_name {n : String} {l : List Int} {d : DriverDataClass}
    (h : mkDriver n l = Except.ok d) : d.name = n := by
  unfold mkDriver at h
  split at h
  · cases h; rfl
  · cases h

/-- Claim C9: with the driver table present and row 3 well-formed (a name
cell followed by eleven parseable stats), (a) absence of row 4 is recovered:
extraction succeeds with `driver_change` absent and the stats record fully
populated; (b) a present well-formed row 4 of eleven parenthesised deltas
yields a change record carrying the same driver name; (c) by contrast a
structural lookup failure elsewhere — the setups table missing — propagates
as an `AttributeError` and fails the whole document parse. -/
theorem driver_change_row_optional (doc : Doc) (table : Table) (row3 : Row)
    (name : String) (statStrs : List String) (stats : List Int)
    (ds : DriverDataClass)
    (htab : findTable doc "Driver attributes" = some table)
    (hrow3 : selectRow table 3 = some row3)
    (hcells : row3.cells.map (fun c => pyStripWS c.text) = name :: statStrs)
    (hstats : mapExcept pyInt statStrs = Except.ok stats)
    (hmk : mkDriver name stats = Except.ok ds) :
    (selectRow table 4 = none →
      parseDriverSection doc = Except.ok (ds, none)) ∧
    (∀ row4 chs dc, selectRow table 4 = some row4 →
      mapExcept (fun c => pyInt (pyStrip parenStripChars c.text)) row4.cells =
        Except.ok chs →
      mkDriver name chs = Except.ok dc →
      parseDriverSection doc = Except.ok (ds, some dc) ∧ dc.name = ds.name) ∧
    (∀ (season race : Option Int) (idf : IdentityInfo),
      findTable doc "Setups used" = none →
      checkSentinel doc season race = Except.ok () →
      parseIdentity doc = Except.ok idf →
      parseDoc doc season race = Except.error PyErr.attributeError) := by
  refine ⟨?_, ?_, ?_⟩
  · intro h4
    unfold parseDriverSection
    rw [htab]
    simp only [getAttr, ok_bind]
    rw [hrow3]
    simp only [getAttr, ok_bind, hcells]
    simp only [listIndex0, ok_bind, List.drop_succ_cons, List.drop_zero,
      hstats, hmk]
    rw [h4]
    simp [getAttr]
  · intro row4 chs dc h4 hch hmkc
    refine ⟨?_, by rw [mkDriver_ok_name hmkc, mkDriver_ok_name hmk]⟩
    unfold parseDriverSection
    rw [htab]
    simp only [getAttr, ok_bind]
    rw [hrow3]
    simp only [getAttr, ok_bind, hcells]
    simp only [listIndex0, ok_bind, List.drop_succ_cons, List.drop_zero,
      hstats, hmk]
    rw [h4]
    simp only [getAttr, ok_bind, hch, hmkc]
  · intro season race idf hset hsent hidf
    unfold parseDoc
    rw [hsent]
    simp only [ok_bind]
    rw [hidf]
    simp only [ok_bind]
    unfold parseSetupsSection
    rw [hset]
    simp [getAttr]

/-! ## Lemmas for the history walker -/

theorem isOk_exists {α : Type} {e : Except PyErr α} (h : isOk e = true) :
    ∃ a, e = Except.ok a := by
  cases e with
  | ok a => exact ⟨a, rfl⟩
  | error e0 => simp [isOk] at h

theorem isNotRaced_exists {α : Type} {e : Except PyErr α}
    (h : isNotRaced e = true) :
    ∃ m, e = Except.error (PyErr.notRacedError m) := by
  cases e with
  | ok a => simp [isNotRaced] at h
  | error e0 =>
      cases e0
      case notRacedError m => exact ⟨m, rfl⟩
      all_goals simp [isNotRaced] at h

theorem seasonLoop_ok_keys (env : String → Doc) (season : Option Int) :
    ∀ (rs : List Int) (st acc : Cache) (urls : List String),
    (∀ r ∈ rs, isOk (fetchOutcome env season (some r)) = true ∨
      isNotRaced (fetchOutcome env season (some r)) = true) →
    rs.Nodup →
    (∀ r ∈ rs, dictGet acc (season, some r) = none) →
    ∃ res st' urls',
      seasonLoop env season rs st acc urls = (Except.ok res, st', urls') ∧
      res.map Prod.fst = acc.map Prod.fst ++
        (rs.filter (fun r => isOk (fetchOutcome env season (some r)))).map
          (fun r => (season, some r)) := by
  intro rs
  induction rs with
  | nil =>
      intro st acc urls _ _ _
      exact ⟨acc, st, urls, rfl, by simp⟩
  | cons r rest ih =>
      intro st acc urls hok hnd hfresh
      have hnd' := List.nodup_cons.mp hnd
      rcases hpr : parse_race_analysis env st season (some r) with ⟨res0, st0, u0⟩
      have hres0 : res0 = fetchOutcome env season (some r) := by
        rw [← parse_race_analysis_fst env st season (some r), hpr]
      rcases hok r (List.mem_cons_self r rest) with hokr | hskip
      · obtain ⟨d, hd⟩ := isOk_exists hokr
        rw [hres0.trans hd] at hpr
        obtain ⟨res, st', urls', hloop, hkeys⟩ :=
          ih st0 (dictSet acc (season, some r) d) (urls ++ u0)
            (fun r' hr' => hok r' (List.mem_cons_of_mem r hr'))
            hnd'.2
            (fun r' hr' => by
              rw [dictGet_dictSet_ne]
              · exact hfresh r' (List.mem_cons_of_mem r hr')
              · intro hcontra
                have hrr : r' = r := by
                  have h2 := congrArg Prod.snd hcontra
                  exact Option.some.inj h2
                exact hnd'.1 (hrr ▸ hr'))
        refine ⟨res, st', urls', ?_, ?_⟩
        · simp only [seasonLoop]
          rw [hpr]
          exact hloop
        · rw [hkeys,
            dictSet_keys_of_get_none d (hfresh r (List.mem_cons_self r rest))]
          simp [List.filter_cons, hokr, List.append_assoc]
      · obtain ⟨m, hm⟩ := isNotRaced_exists hskip
        rw [hres0.trans hm] at hpr
        have hokf : isOk (fetchOutcome env season (some r)) = false := by
          rw [hm]
          rfl
        obtain ⟨res, st', urls', hloop, hkeys⟩ :=
          ih st0 acc (urls ++ u0)
            (fun r' hr' => hok r' (List.mem_cons_of_mem r hr'))
            hnd'.2
            (fun r' hr' => hfresh r' (List.mem_cons_of_mem r hr'))
        refine ⟨res, st', urls', ?_, ?_⟩
        · simp only [seasonLoop]
          rw [hpr]
          exact hloop
        · rw [hkeys]
          simp [List.filter_cons, hokf]

theorem seasonLoop_abort (env : String → Doc) (season : Option Int) :
    ∀ (pre : List Int) (r0 : Int) (post : List Int) (st acc : Cache)
      (urls : List String) (e : PyErr),
    (∀ r ∈ pre, isOk (fetchOutcome env season (some r)) = true ∨
      isNotRaced (fetchOutcome env season (some r)) = true) →
    fetchOutcome env season (some r0) = Except.error e →
    (∀ m, e ≠ PyErr.notRacedError m) →
    ∃ st' urls',
      seasonLoop env season (pre ++ r0 :: post) st acc urls =
        (Except.error e, st', urls') := by
  intro pre
  induction pre with
  | nil =>
      intro r0 post st acc urls e _ herr hnm
      rcases hpr : parse_race_analysis env st season (some r0) with ⟨res0, st0, u0⟩
      have hres0 : res0 = Except.error e := by
        rw [← parse_race_analysis_fst env st season (some r0), hpr] at herr
        exact herr
      subst hres0
      cases e
      case notRacedError m => exact absurd rfl (hnm m)
      all_goals
        exact ⟨st0, urls ++ u0, by
          simp only [List.nil_append, seasonLoop]
          rw [hpr]⟩
  | cons p pre' ih =>
      intro r0 post st acc urls e hpre herr hnm
      rcases hpr : parse_race_analysis env st season (some p) with ⟨res0, st0, u0⟩
      have hres0 : res0 = fetchOutcome env season (some p) := by
        rw [← parse_race_analysis_fst env st season (some p), hpr]
      rcases hpre p (List.mem_cons_self p pre') with hokp | hskip
      · obtain ⟨d, hd⟩ := isOk_exists hokp
        rw [hres0.trans hd] at hpr
        obtain ⟨st', urls', hloop⟩ :=
          ih r0 post st0 (dictSet acc (season, some p) d) (urls ++ u0) e
            (fun r' hr' => hpre r' (List.mem_cons_of_mem p hr')) herr hnm
        refine ⟨st', urls', ?_⟩
        simp only [List.cons_append, seasonLoop]
        rw [hpr]
        exact hloop
      · obtain ⟨m, hm⟩ := isNotRaced_exists hskip
        rw [hres0.trans hm] at hpr
        obtain ⟨st', urls', hloop⟩ :=
          ih r0 post st0 acc (urls ++ u0) e
            (fun r' hr' => hpre r' (List.mem_cons_of_mem p hr')) herr hnm
        refine ⟨st', urls', ?_⟩
        simp only [List.cons_append, seasonLoop]
        rw [hpr]
        exact hloop

/-- Claim C3: the season walk probes exactly races 1–17; provided the
most-recent fetch succeeds, (a) when every probed coordinate either
participates or signals non-participation the walk returns a mapping whose
key list is exactly the participating coordinates `(s, r)` in probe order
(skipped races absent), and (b) the first non-`NotRacedError` failure among
the probes aborts the walk with that error. -/
theorem season_walk_exact_keys (env : String → Doc) (st : Cache)
    (season : Option Int) :
    ((isOk (fetchOutcome env none none) = true) →
     (∀ r ∈ raceNums, isOk (fetchOutcome env season (some r)) = true ∨
        isNotRaced (fetchOutcome env season (some r)) = true) →
     ∃ res st' urls,
       parse_season_race_analysis env st season = (Except.ok res, st', urls) ∧
       res.map Prod.fst =
         (raceNums.filter (fun r => isOk (fetchOutcome env season (some r)))).map
           (fun r => (season, some r))) ∧
    (∀ (pre : List Int) (r0 : Int) (post : List Int) (e : PyErr),
      isOk (fetchOutcome env none none) = true →
      raceNums = pre ++ r0 :: post →
      (∀ r ∈ pre, isOk (fetchOutcome env season (some r)) = true ∨
        isNotRaced (fetchOutcome env season (some r)) = true) →
      fetchOutcome env season (some r0) = Except.error e →
      (∀ m, e ≠ PyErr.notRacedError m) →
      ∃ st' urls,
        parse_season_race_analysis env st season = (Except.error e, st', urls)) := by
  constructor
  · intro hmost hall
    obtain ⟨d0, hd0⟩ := isOk_exists hmost
    rcases hp0 : parse_race_analysis env st none none with ⟨res0, st0, u0⟩
    have hres0 : res0 = Except.ok d0 := by
      rw [← parse_race_analysis_fst env st none none, hp0] at hd0
      exact hd0
    subst hres0
    obtain ⟨res, st', urls', hloop, hkeys⟩ :=
      seasonLoop_ok_keys env season raceNums st0 [] u0 hall (by decide)
        (fun _ _ => rfl)
    refine ⟨res, st', urls', ?_, ?_⟩
    · simp only [parse_season_race_analysis]
      rw [hp0]
      exact hloop
    · rw [hkeys]
      simp
  · intro pre r0 post e hmost heq hpre herr hnm
    obtain ⟨d0, hd0⟩ := isOk_exists hmost
    rcases hp0 : parse_race_analysis env st none none with ⟨res0, st0, u0⟩
    have hres0 : res0 = Except.ok d0 := by
      rw [← parse_race_analysis_fst env st none none, hp0] at hd0
      exact hd0
    subst hres0
    obtain ⟨st', urls', hloop⟩ :=
      seasonLoop_abort env season pre r0 post st0 [] u0 e hpre herr hnm
    refine ⟨st', urls', ?_⟩
    simp only [parse_season_race_analysis]
    rw [hp0, heq]
    exact hloop

/-- Witness for C9 at the concrete fixture document (its driver table has no
fourth row): extraction succeeds with `driver_change` absent and all stats
populated. -/
theorem driver_change_row_optional_witness :
    parseDriverSection (goodDoc 5 6) =
      Except.ok (⟨"Jo Do", 90, 1, 2, 3, 4, 5, 6, 7, 8, 9, 70⟩, none) :=
  (driver_change_row_optional (goodDoc 5 6)
      ⟨[goodRow [], goodRow [],
        goodRow ["Jo Do", "90", "1", "2", "3", "4", "5", "6", "7", "8", "9",
          "70"]]⟩
      (goodRow ["Jo Do", "90", "1", "2", "3", "4", "5", "6", "7", "8", "9",
        "70"])
      "Jo Do" ["90", "1", "2", "3", "4", "5", "6", "7", "8", "9", "70"]
      [90, 1, 2, 3, 4, 5, 6, 7, 8, 9, 70]
      ⟨"Jo Do", 90, 1, 2, 3, 4, 5, 6, 7, 8, 9, 70⟩
      (by decide) (by decide) (by decide) (by decide) (by decide)).1 (by decide)

/-- The C3 witness site: season 3 has participation documents at races 1, 3
and 5, non-participation sentinels at every other probed race, and a
participation document as the most recent report. -/
def c3Env (u : String) : Doc :=
  if u = mostRecentUrl then goodDoc 3 10
  else if u = raceUrl 3 1 then goodDoc 3 1
  else if u = raceUrl 3 3 then goodDoc 3 3
  else if u = raceUrl 3 5 then goodDoc 3 5
  else if u = raceUrl 3 2 then notRacedDoc 3 2
  else if u = raceUrl 3 4 then notRacedDoc 3 4
  else if u = raceUrl 3 6 then notRacedDoc 3 6
  else if u = raceUrl 3 7 then notRacedDoc 3 7
  else if u = raceUrl 3 8 then notRacedDoc 3 8
  else if u = raceUrl 3 9 then notRacedDoc 3 9
  else if u = raceUrl 3 10 then notRacedDoc 3 10
  else if u = raceUrl 3 11 then notRacedDoc 3 11
  else if u = raceUrl 3 12 then notRacedDoc 3 12
  else if u = raceUrl 3 13 then notRacedDoc 3 13
  else if u = raceUrl 3 14 then notRacedDoc 3 14
  else if u = raceUrl 3 15 then notRacedDoc 3 15
  else if u = raceUrl 3 16 then notRacedDoc 3 16
  else if u = raceUrl 3 17 then notRacedDoc 3 17
  else {}

/-- The key list of a successful season walk (empty on error). -/
def walkKeys (e : Except PyErr Cache) : List Coord :=
  match e with
  | Except.ok res => res.map Prod.fst
  | Except.error _ => []

/-- Witness for C3: walking season 3 of `c3Env` (races 1, 3, 5 participated,
all others not) returns exactly the keys `(3,1), (3,3), (3,5)`. -/
theorem season_walk_exact_keys_witness :
    walkKeys (parse_season_race_analysis c3Env [] (some 3)).1 =
      [((some 3 : Option Int), (some 1 : Option Int)),
        (some 3, some 3), (some 3, some 5)] := by
  obtain ⟨res, st', urls, heq, hkeys⟩ :=
    (season_walk_exact_keys c3Env [] (some 3)).1 (by decide) (by decide)
  rw [heq]
  show res.map Prod.fst = _
  rw [hkeys]
  decide

/-! ## `NotRacedError` arises only from the sentinel check -/

/-- `e` is not a `NotRacedError` result. -/
def NotRacedFree {α : Type} (e : Except PyErr α) : Prop :=
  ∀ m, e ≠ Except.error (PyErr.notRacedError m)

theorem bindErr {α β : Type} {e : Except PyErr α} {f : α → Except PyErr β}
    {err : PyErr} (h : e >>= f = Except.error err) :
    e = Except.error err ∨ ∃ a, e = Except.ok a ∧ f a = Except.error err := by
  cases e with
  | error e0 => left; simpa using h
  | ok a => right; exact ⟨a, rfl, h⟩

theorem nrf_ok {α : Type} (a : α) : NotRacedFree (Except.ok a) :=
  fun _ h => Except.noConfusion h

theorem nrf_bind {α β : Type} {e : Except PyErr α} {f : α → Except PyErr β}
    (h1 : NotRacedFree e) (h2 : ∀ a, NotRacedFree (f a)) :
    NotRacedFree (e >>= f) := by
  intro m
  cases e with
  | error e0 => simpa using h1 m
  | ok a => simpa using h2 a m

theorem nrf_getAttr {α : Type} {o : Option α} : NotRacedFree (getAttr o) := by
  intro m h
  cases o <;> simp [getAttr] at h

theorem nrf_pyInt (s : String) : NotRacedFree (pyInt s) := by
  intro m h
  unfold pyInt at h
  split at h <;> simp at h

theorem nrf_mapExcept {α β : Type} (f : α → Except PyErr β)
    (hf : ∀ x, NotRacedFree (f x)) :
    ∀ l, NotRacedFree (mapExcept f l)
  | [] => nrf_ok []
  | x :: xs => by
      simp only [mapExcept]
      exact nrf_bind (hf x)
        (fun y => nrf_bind (nrf_mapExcept f hf xs) (fun ys => nrf_ok (y :: ys)))

theorem nrf_listPop0 {α : Type} (l : List α) : NotRacedFree (listPop0 l) := by
  intro m h
  cases l <;> simp [listPop0] at h

theorem nrf_listPopLast {α : Type} (l : List α) : NotRacedFree (listPopLast l) := by
  intro m h
  unfold listPopLast at h
  cases hl : l.reverse with
  | nil => rw [hl] at h; simp at h
  | cons x xs => rw [hl] at h; simp at h

theorem nrf_listIndex0 {α : Type} (l : List α) : NotRacedFree (listIndex0 l) := by
  intro m h
  cases l <;> simp [listIndex0] at h

theorem nrf_mkDriver (n : String) (l : List Int) : NotRacedFree (mkDriver n l) := by
  intro m h
  unfold mkDriver at h
  split at h <;> simp at h

theorem nrf_mkSetup (t : String) (l : List Int) : NotRacedFree (mkSetup t l) := by
  intro m h
  unfold mkSetup at h
  split at h <;> simp at h

theorem nrf_mkCarPart (l : List Int) : NotRacedFree (mkCarPart l) := by
  intro m h
  unfold mkCarPart at h
  split at h <;> simp at h

theorem nrf_cellImgTitle (c : Cell) : NotRacedFree (cellImgTitle c) := by
  unfold cellImgTitle
  refine nrf_bind nrf_getAttr (fun attrs => ?_)
  intro m h
  cases hl : attrs.lookup "title" with
  | none => rw [hl] at h; simp at h
  | some v => rw [hl] at h; simp at h

theorem nrf_parseIdentity (doc : Doc) : NotRacedFree (parseIdentity doc) := by
  unfold parseIdentity
  refine nrf_bind nrf_getAttr (fun link => ?_)
  obtain ⟨ltext, lhref⟩ := link
  refine nrf_bind ?_ (fun href => ?_)
  · intro m h
    cases lhref <;> simp at h
  refine nrf_bind nrf_getAttr (fun tid => ?_)
  refine nrf_bind nrf_getAttr (fun bt => ?_)
  refine nrf_bind nrf_getAttr (fun idg => ?_)
  refine nrf_bind (nrf_pyInt _) (fun sNum => ?_)
  refine nrf_bind (nrf_pyInt _) (fun rNum => ?_)
  exact nrf_ok _

theorem nrf_parseSetupsSection (doc : Doc) :
    NotRacedFree (parseSetupsSection doc) := by
  unfold parseSetupsSection
  refine nrf_bind nrf_getAttr (fun table => ?_)
  refine nrf_bind nrf_getAttr (fun r3 => ?_)
  refine nrf_bind nrf_getAttr (fun r4 => ?_)
  refine nrf_bind nrf_getAttr (fun r5 => ?_)
  refine nrf_bind (nrf_listPop0 _) (fun p1 => ?_)
  refine nrf_bind (nrf_listPopLast _) (fun t1 => ?_)
  refine nrf_bind (nrf_listPop0 _) (fun p2 => ?_)
  refine nrf_bind (nrf_listPopLast _) (fun t2 => ?_)
  refine nrf_bind (nrf_listPop0 _) (fun p3 => ?_)
  refine nrf_bind (nrf_listPopLast _) (fun t3 => ?_)
  refine nrf_bind (nrf_mapExcept _ nrf_pyInt _) (fun l1 => ?_)
  refine nrf_bind (nrf_mapExcept _ nrf_pyInt _) (fun l2 => ?_)
  refine nrf_bind (nrf_mapExcept _ nrf_pyInt _) (fun l3 => ?_)
  refine nrf_bind (nrf_mkSetup _ _) (fun s1 => ?_)
  refine nrf_bind (nrf_mkSetup _ _) (fun s2 => ?_)
  refine nrf_bind (nrf_mkSetup _ _) (fun s3 => ?_)
  exact nrf_ok _

theorem nrf_parseDriverSection (doc : Doc) :
    NotRacedFree (parseDriverSection doc) := by
  unfold parseDriverSection
  refine nrf_bind nrf_getAttr (fun table => ?_)
  refine nrf_bind nrf_getAttr (fun row3 => ?_)
  refine nrf_bind (nrf_listIndex0 _) (fun name => ?_)
  refine nrf_bind (nrf_mapExcept _ nrf_pyInt _) (fun stats => ?_)
  refine nrf_bind (nrf_mkDriver _ _) (fun ds => ?_)
  intro m h
  rcases hin : (do
      let row4 ← getAttr (selectRow table 4)
      let chList ← mapExcept (fun c => pyInt (pyStrip parenStripChars c.text))
        row4.cells
      mkDriver name chList : Except PyErr DriverDataClass) with pe | d
  case ok =>
    rw [hin] at h
    simp at h
  case error =>
    have hnrf : NotRacedFree (do
        let row4 ← getAttr (selectRow table 4)
        let chList ← mapExcept (fun c => pyInt (pyStrip parenStripChars c.text))
          row4.cells
        mkDriver name chList : Except PyErr DriverDataClass) :=
      nrf_bind nrf_getAttr (fun row4 =>
        nrf_bind (nrf_mapExcept _ (fun c => nrf_pyInt _) _)
          (fun chList => nrf_mkDriver _ _))
    rw [hin] at h
    cases pe with
    | notRacedError ms => exact hnrf ms hin
    | valueError ms => simp at h
    | attributeError => simp at h
    | typeError => simp at h
    | keyError => simp at h
    | indexError => simp at h

theorem nrf_parseQualWeatherCell (c : Cell) :
    NotRacedFree (parseQualWeatherCell c) := by
  unfold parseQualWeatherCell
  refine nrf_bind (nrf_cellImgTitle _) (fun label => ?_)
  refine nrf_bind nrf_getAttr (fun mm => ?_)
  refine nrf_bind (nrf_pyInt _) (fun temp => ?_)
  refine nrf_bind (nrf_pyInt _) (fun hum => ?_)
  exact nrf_ok _

theorem nrf_forecastOfCell (t : String) : NotRacedFree (forecastOfCell t) := by
  unfold forecastOfCell
  exact nrf_bind nrf_getAttr (fun mm => nrf_ok _)

theorem nrf_parseWeatherSection (doc : Doc) :
    NotRacedFree (parseWeatherSection doc) := by
  unfold parseWeatherSection
  refine nrf_bind nrf_getAttr (fun table => ?_)
  refine nrf_bind nrf_getAttr (fun c31 => ?_)
  refine nrf_bind (nrf_parseQualWeatherCell _) (fun q1 => ?_)
  refine nrf_bind nrf_getAttr (fun c32 => ?_)
  refine nrf_bind (nrf_parseQualWeatherCell _) (fun q2 => ?_)
  refine nrf_bind nrf_getAttr (fun c61 => ?_)
  refine nrf_bind (nrf_forecastOfCell _) (fun f1 => ?_)
  refine nrf_bind nrf_getAttr (fun c62 => ?_)
  refine nrf_bind (nrf_forecastOfCell _) (fun f2 => ?_)
  refine nrf_bind nrf_getAttr (fun c81 => ?_)
  refine nrf_bind (nrf_forecastOfCell _) (fun f3 => ?_)
  refine nrf_bind nrf_getAttr (fun c82 => ?_)
  refine nrf_bind (nrf_forecastOfCell _) (fun f4 => ?_)
  exact nrf_ok _

theorem nrf_parseCarPartsSection (doc : Doc) :
    NotRacedFree (parseCarPartsSection doc) := by
  unfold parseCarPartsSection
  refine nrf_bind nrf_getAttr (fun table => ?_)
  refine nrf_bind nrf_getAttr (fun r3 => ?_)
  refine nrf_bind (nrf_mapExcept _ (fun c => nrf_pyInt _) _) (fun lvl => ?_)
  refine nrf_bind (nrf_mkCarPart _) (fun levels => ?_)
  refine nrf_bind nrf_getAttr (fun r5 => ?_)
  refine nrf_bind (nrf_mapExcept _ (fun c => nrf_pyInt _) _) (fun sw => ?_)
  refine nrf_bind (nrf_mkCarPart _) (fun startWear => ?_)
  refine nrf_bind nrf_getAttr (fun r7 => ?_)
  refine nrf_bind (nrf_mapExcept _ (fun c => nrf_pyInt _) _) (fun fw => ?_)
  refine nrf_bind (nrf_mkCarPart _) (fun finishWear => ?_)
  exact nrf_ok _

/-! ## The decimal rendering never begins with the letter `N` -/

theorem digitChar_ne (k : Nat) : digitChar k ≠ 'N' := by
  unfold digitChar
  split <;> decide

theorem natStrGo_chars : ∀ (fuel n : Nat) (acc : List Char),
    ∀ c ∈ natStrGo fuel n acc, (∃ k, c = digitChar k) ∨ c ∈ acc := by
  intro fuel
  induction fuel with
  | zero => intro n acc c hc; exact Or.inr hc
  | succ f ih =>
      intro n acc c hc
      simp only [natStrGo] at hc
      split at hc
      · exact Or.inr hc
      · rcases ih (n / 10) (digitChar (n % 10) :: acc) c hc with h | h
        · exact Or.inl h
        · rcases List.mem_cons.mp h with h1 | h1
          · exact Or.inl ⟨n % 10, h1⟩
          · exact Or.inr h1

theorem natStrGo_append : ∀ (fuel n : Nat) (acc : List Char),
    ∃ l, natStrGo fuel n acc = l ++ acc := by
  intro fuel
  induction fuel with
  | zero => intro n acc; exact ⟨[], rfl⟩
  | succ f ih =>
      intro n acc
      simp only [natStrGo]
      split
      · exact ⟨[], rfl⟩
      · obtain ⟨l, hl⟩ := ih (n / 10) (digitChar (n % 10) :: acc)
        exact ⟨l ++ [digitChar (n % 10)], by rw [hl]; simp⟩

theorem natStr_head (n : Nat) :
    ∃ c cs, (natStr n).data = c :: cs ∧ c ≠ 'N' := by
  unfold natStr
  by_cases h0 : n = 0
  · rw [if_pos h0]
    exact ⟨'0', [], rfl, by decide⟩
  · rw [if_neg h0]
    have key : ∃ c cs, natStrGo n n [] = c :: cs ∧ c ≠ 'N' := by
      obtain ⟨m, hm⟩ := Nat.exists_eq_succ_of_ne_zero h0
      rw [hm]
      simp only [natStrGo]
      rw [if_neg (Nat.succ_ne_zero m)]
      obtain ⟨l, hl⟩ := natStrGo_append m ((m + 1) / 10) [digitChar ((m + 1) % 10)]
      rw [hl]
      cases hll : l ++ [digitChar ((m + 1) % 10)] with
      | nil => simp at hll
      | cons c cs =>
          refine ⟨c, cs, rfl, ?_⟩
          have hc2 : c ∈ natStrGo m ((m + 1) / 10) [digitChar ((m + 1) % 10)] := by
            rw [hl, hll]
            exact List.mem_cons_self c cs
          rcases natStrGo_chars m ((m + 1) / 10) _ c hc2 with ⟨k, hk⟩ | hmem
          · rw [hk]; exact digitChar_ne k
          · rw [List.mem_singleton.mp hmem]; exact digitChar_ne _
    exact key

theorem intStr_head (i : Int) :
    ∃ c cs, (intStr i).data = c :: cs ∧ c ≠ 'N' := by
  unfold intStr
  by_cases hneg : i < 0
  · rw [if_pos hneg]
    exact ⟨'-', (natStr i.natAbs).data, rfl, by decide⟩
  · rw [if_neg hneg]
    exact natStr_head i.toNat

theorem strData_append (a b : String) : (a ++ b).data = a.data ++ b.data := by
  cases a; cases b; rfl

/-- The sentinel for a concrete coordinate is never the sentinel of an
omitted coordinate (whose interpolation is the literal text `None`). -/
theorem sentinelText_concrete_ne_omitted (s r : Int) :
    sentinelText (some s) (some r) ≠ sentinelText none none := by
  intro h
  have hd := congrArg String.data h
  simp only [sentinelText, pyStrOptInt, strData_append, List.append_assoc] at hd
  have hd2 := List.append_cancel_left hd
  obtain ⟨c, cs, hcs, hcN⟩ := intStr_head s
  rw [hcs, List.cons_append] at hd2
  have hN : ("None".data ++ (", Race ".data ++ "None".data)) =
      'N' :: ("one".data ++ (", Race ".data ++ "None".data)) := rfl
  rw [hN] at hd2
  injection hd2 with h1 _
  exact hcN h1

/-! ## `NotRacedError` inversion for the full document parse -/

theorem parseDoc_notRaced_sentinel {doc : Doc} {season race : Option Int}
    {m : String}
    (h : parseDoc doc season race = Except.error (PyErr.notRacedError m)) :
    doc.center = some (sentinelText season race) := by
  unfold parseDoc at h
  rcases bindErr h with hcs | ⟨u, hcs, h⟩
  · unfold checkSentinel at hcs
    rcases bindErr hcs with hca | ⟨ct, hca, hcs⟩
    · exact absurd hca (nrf_getAttr m)
    · by_cases hct : ct = sentinelText season race
      · rw [← hct]
        exact getAttr_ok hca
      · rw [if_neg hct] at hcs
        cases hcs
  · rcases bindErr h with hid | ⟨idf, hid, h⟩
    · exact absurd hid (nrf_parseIdentity doc m)
    · rcases bindErr h with hs | ⟨setups, hs, h⟩
      · exact absurd hs (nrf_parseSetupsSection doc m)
      · rcases bindErr h with hdr | ⟨driver, hdr, h⟩
        · exact absurd hdr (nrf_parseDriverSection doc m)
        · rcases bindErr h with hc | ⟨carParts, hc, h⟩
          · exact absurd hc (nrf_parseCarPartsSection doc m)
          · rcases bindErr h with hw | ⟨weather, hw, h⟩
            · exact absurd hw (nrf_parseWeatherSection doc m)
            · exact Except.noConfusion h

/-- Claim C10: on an omitted-coordinate fetch the sentinel comparison
interpolates the absent values literally, so `NotRacedError` is raised iff
the identity block's text is exactly
`You did not participate in Season None, Race None`; consequently a
non-participation document for any concrete coordinate never raises
`NotRacedError` on an omitted-coordinate fetch. -/
theorem omitted_fetch_sentinel_literal (env : String → Doc) (st : Cache) :
    (isNotRaced (parse_race_analysis env st none none).1 = true ↔
      (env mostRecentUrl).center = some (sentinelText none none)) ∧
    (∀ s r : Int,
      (env mostRecentUrl).center = some (sentinelText (some s) (some r)) →
      isNotRaced (parse_race_analysis env st none none).1 = false) := by
  have hfo : (parse_race_analysis env st none none).1 =
      parseDoc (env mostRecentUrl) none none := by
    rw [parse_race_analysis_fst env st none none]
    rfl
  constructor
  · rw [hfo]
    constructor
    · intro h
      obtain ⟨m, hm⟩ := isNotRaced_exists h
      exact parseDoc_notRaced_sentinel hm
    · intro h
      have hP : parseDoc (env mostRecentUrl) none none =
          Except.error (PyErr.notRacedError (sentinelText none none)) := by
        unfold parseDoc checkSentinel
        rw [h]
        simp [getAttr]
      rw [hP]
      rfl
  · intro s r h
    rw [hfo]
    cases hx : isNotRaced (parseDoc (env mostRecentUrl) none none) with
    | false => rfl
    | true =>
        obtain ⟨m, hm⟩ := isNotRaced_exists hx
        have hc := parseDoc_notRaced_sentinel hm
        rw [h] at hc
        exact absurd (Option.some.inj hc) (sentinelText_concrete_ne_omitted s r)

/-- Witness for C10: a site whose most-recent page is the non-participation
document for the concrete coordinate `(4, 2)` does not make the
omitted-coordinate fetch raise `NotRacedError`. -/
theorem omitted_fetch_sentinel_literal_witness :
    isNotRaced (parse_race_analysis (fun _ => notRacedDoc 4 2) []
      none none).1 = false :=
  (omitted_fetch_sentinel_literal (fun _ => notRacedDoc 4 2) []).2 4 2 (by decide)
